import Mathlib

/-!
Verification development for the dsrc-ns3 two-vehicle DSRC simulation
(`src/dsrc_imp.c`).  The C file is a driver for the ns-3 library: it
configures two constant-velocity nodes, an 802.11p channel with a
two-ray ground propagation loss model, a UDP echo client/server pair,
and a FlowMonitor, then prints per-flow statistics.

The per-flow report arithmetic (lines 141-160 of `src/dsrc_imp.c`) is
embedded directly from the source.  The simulation core itself (event
queue, mobility, propagation, traffic generation, flow statistics) is
library code that is not part of the repository; it is modelled from
the specification (spec.md sections 3-4), with the configuration
constants taken from the source.  All real-valued quantities are
modelled as rationals; powers are kept in the linear (mW) domain, so
the spec's dB additions become multiplications.
-/

namespace Dsrc

/-! ## Geometry -/

/-- A 3-dimensional vector with rational coordinates (positions,
velocities), as in the source's `Vector(x, y, z)` calls. -/
structure Vec3 where
  x : ℚ
  y : ℚ
  z : ℚ
deriving DecidableEq, Repr

/-- Squared Euclidean distance between two positions. -/
def distSq (p q : Vec3) : ℚ :=
  (p.x - q.x) ^ 2 + (p.y - q.y) ^ 2 + (p.z - q.z) ^ 2

/-- Newton iteration for the integer square root, with explicit fuel
so that it is structurally recursive (the guess strictly decreases, so
any fuel of at least the initial guess gives the same result as
`Nat.sqrt`; see `natSqrt_eq`). -/
def sqrtIter : ℕ → ℕ → ℕ → ℕ
  | 0, _, g => g
  | Nat.succ fuel, n, g =>
    let next := (g + n / g) / 2
    if next < g then sqrtIter fuel n next else g

/-- Integer square root, agreeing with `Nat.sqrt` (`natSqrt_eq`). -/
def natSqrt (n : ℕ) : ℕ :=
  if n ≤ 1 then n else sqrtIter n n (n / 2)

/-- Rational square root: exact on squares of rationals (`ratSqrt_sq`).
Every squared distance arising in this development is the square of a
rational, because the two nodes always share their `y` and `z`
coordinates, so this computes the exact Euclidean distance there. -/
def ratSqrt (q : ℚ) : ℚ :=
  (natSqrt q.num.toNat : ℚ) / (natSqrt q.den : ℚ)

/-- Euclidean distance between two positions (exact whenever the
squared distance is a perfect rational square). -/
def dist (p q : Vec3) : ℚ := ratSqrt (distSq p q)

/-! ## Mobility (spec section 4.2, source lines 60-77) -/

/-- Modelled from the spec: constant-velocity mobility,
`position(t) = initialPosition + velocity * t` (spec section 4.2); the
source installs `ns3::ConstantVelocityMobilityModel` on both nodes. -/
def positionAt (p v : Vec3) (t : ℚ) : Vec3 :=
  ⟨p.x + v.x * t, p.y + v.y * t, p.z + v.z * t⟩

/-- Initial separation of the two vehicles, source line 22. -/
def initialDistance : ℚ := 50

/-- Vehicle 1 initial position, source line 63. -/
def node0Pos : Vec3 := ⟨0, 0, 3/2⟩

/-- Vehicle 2 initial position, source line 64. -/
def node1Pos : Vec3 := ⟨initialDistance, 0, 3/2⟩

/-- Vehicle 1 velocity, source line 71. -/
def node0Vel : Vec3 := ⟨20, 0, 0⟩

/-- Vehicle 2 velocity, source line 72. -/
def node1Vel : Vec3 := ⟨-20, 0, 0⟩

/-! ## Propagation model (spec section 4.3, source lines 36-48)

Modelled from the spec: the `TwoRayGroundPropagationLossModel` and
`ConstantSpeedPropagationDelayModel` the source configures are ns-3
library code, so the evaluation function follows spec section 4.3.
Powers and gains are linear (mW) quantities; the spec's dB equation
`rxPowerDbm = txPowerDbm + antennaGainDbm - pathLossDb` becomes
`rxPow = txPow * antGain / pathLoss`.  The physical constants 4*pi and
the wavelength enter only through rational configuration fields. -/

/-- Propagation configuration: linear-domain counterparts of the
constants on source lines 40-48, plus physical constants.  The spec
(section 9) treats the exact gain and sensitivity values as tunable
implementation constants. -/
structure PropCfg where
  /-- linear transmit power (mW) -/
  txPow : ℚ
  /-- linear antenna gain factor -/
  antGain : ℚ
  /-- linear noise figure factor -/
  noiseFactor : ℚ
  /-- linear receiver sensitivity threshold (mW) -/
  sens : ℚ
  /-- carrier wavelength (m) -/
  lambda : ℚ
  /-- transmitter antenna height (m) -/
  hTx : ℚ
  /-- receiver antenna height (m) -/
  hRx : ℚ
  /-- propagation speed (m/s) -/
  c : ℚ
  /-- rational value standing for the constant 4*pi -/
  fourPi : ℚ
deriving DecidableEq, Repr

/-- Modelled from the spec: crossover distance
`d_c = 4*pi*h_tx*h_rx / lambda` separating the free-space and
ground-reflection regimes. -/
def crossoverDist (c : PropCfg) : ℚ := c.fourPi * c.hTx * c.hRx / c.lambda

/-- Modelled from the spec: free-space (Friis) linear path loss
`(4*pi*d/lambda)^2`, used below the crossover distance. -/
def freeSpaceLoss (c : PropCfg) (d : ℚ) : ℚ := (c.fourPi * d / c.lambda) ^ 2

/-- Modelled from the spec: two-ray ground linear path loss
`d^4 / (h_tx^2 * h_rx^2)`, used beyond the crossover distance. -/
def twoRayLoss (c : PropCfg) (d : ℚ) : ℚ := d ^ 4 / (c.hTx ^ 2 * c.hRx ^ 2)

/-- Modelled from the spec: linear path loss as a function of
distance; loss `1` (0 dB) at distance zero (spec section 4.3 edge
case), free-space below the crossover distance, two-ray beyond it. -/
def pathLoss (c : PropCfg) (d : ℚ) : ℚ :=
  if d = 0 then 1
  else if d < crossoverDist c then freeSpaceLoss c d
  else twoRayLoss c d

/-- Modelled from the spec: linear received power
`txPow * antGain / pathLoss d`, the linear-domain counterpart of
`rxPowerDbm = txPowerDbm + antennaGainDbm - pathLossDb`. -/
def rxPow (c : PropCfg) (d : ℚ) : ℚ := c.txPow * c.antGain / pathLoss c d

/-- Result of propagation evaluation (spec section 4.3). -/
structure PropResult where
  delay : ℚ
  receivable : Bool
  rxPowLin : ℚ
deriving DecidableEq, Repr

/-- Modelled from the spec: `PropagationModel.evaluate` (section 4.3).
Delay is `distance / speedOfLight`; receivability compares the noise-
corrected received power with the sensitivity threshold and is forced
`true` at distance zero. -/
def evaluate (c : PropCfg) (d : ℚ) : PropResult :=
  { delay := d / c.c
    receivable := decide (d = 0) || decide (c.sens ≤ rxPow c d / c.noiseFactor)
    rxPowLin := rxPow c d }

/-! ## Per-flow statistics and the report (source lines 136-160) -/

/-- Per-flow counters, as in ns-3 `FlowMonitor::FlowStats` restricted
to the fields the report on source lines 144-159 reads, and as in the
spec's `FlowRecord` (section 3). -/
structure FlowStats where
  txPackets : ℕ
  rxPackets : ℕ
  lostPackets : ℕ
  delaySum : ℚ
  rxBytes : ℕ
deriving DecidableEq, Repr

/-- Value of an IEEE-754 double expression as printed by the report:
either a finite rational or one of the non-finite values that division
by zero produces. -/
inductive DVal where
  | finite (q : ℚ)
  | nan
  | posInf
deriving DecidableEq, Repr

/-- IEEE-754 double division for the nonnegative operands appearing in
the report: a finite quotient when the divisor is nonzero, `nan` for
`0/0`, positive infinity for `x/0` with `x > 0`. -/
def ddiv (a b : ℚ) : DVal :=
  if b = 0 then (if a = 0 then DVal.nan else DVal.posInf) else DVal.finite (a / b)

/-- Application start time (seconds), source lines 99 and 108. -/
def clientStartTime : ℚ := 1

/-- Application stop time (seconds), source lines 100 and 109. -/
def clientStopTime : ℚ := 10

/-- Simulator stop time (seconds), source line 133. -/
def simStopTime : ℚ := 10

/-- Beacon interval (seconds), source line 25. -/
def beaconInterval : ℚ := 1/10

/-- Client packet budget, source line 104. -/
def maxPackets : ℕ := 90

/-- BSM packet size (bytes), source line 24. -/
def packetSize : ℕ := 500

/-- The quantities printed per flow by the results-analysis loop. -/
structure FlowReport where
  deliveryRatioPct : DVal
  avgDelaySec : Option ℚ
  throughputKbps : Option ℚ
deriving DecidableEq, Repr

/-- The per-flow report computation from source lines 144-159:
the delivery ratio `rxPackets * 100.0 / txPackets` (line 148) is
computed unconditionally, with no `txPackets == 0` guard; average
delay (line 152) and throughput (line 154, with the hardcoded
duration `9.0`) are printed only under the `rxPackets > 0` test on
line 149. -/
def reportFlow (s : FlowStats) : FlowReport :=
  { deliveryRatioPct := ddiv ((s.rxPackets : ℚ) * 100) (s.txPackets : ℚ)
    avgDelaySec :=
      if 0 < s.rxPackets then some (s.delaySum / (s.rxPackets : ℚ)) else none
    throughputKbps :=
      if 0 < s.rxPackets then some ((s.rxBytes : ℚ) * 8 / 9 / 1000) else none }

/-- The division on source line 148 uses `txPackets` as its
denominator unconditionally (there is no guard), so it executes with a
zero denominator exactly when `txPackets = 0`. -/
def reportDividesByZero (s : FlowStats) : Bool := s.txPackets == 0

/-! ## Traffic generator schedule (spec section 4.5, source lines 103-109) -/

/-- Modelled from the spec: the k-th scheduled beacon time,
`startTime + k * interval` (the generator schedules the first send at
`startTime` and re-arms every `interval`). -/
def sendTimeAt (startT interval : ℚ) (k : ℕ) : ℚ := startT + (k : ℚ) * interval

/-- Modelled from the spec: a scheduled beacon fires only while
`scheduledTime < stopTime` (spec section 8, boundary property). -/
def beaconFires (startT stopT interval : ℚ) (k : ℕ) : Bool :=
  decide (sendTimeAt startT interval k < stopT)

/-! ## Event queue and simulation core (spec sections 4.1, 4.4-4.6)

Modelled from the spec: the discrete-event engine (EventQueue,
ChannelLayer, TrafficGenerator, FlowStatsCollector) is ns-3 library
code, so it is embedded following spec section 4, with the
configuration constants from the source.  One deviation from the
spec's idealised design is forced by the source: the receiving node
runs a `UdpEchoServer` (source lines 96-100), whose ns-3 semantics is
to transmit one echo reply back to the sender for every packet it
receives, so the model carries a second, reverse flow (node 1 to
node 0) alongside the forward flow. -/

/-- The tagged event actions (spec section 9: a discriminated union
dispatched by the event queue).  `clientSend k` is the k-th beacon
transmission by node 0; `serverDeliver` is the arrival of a beacon at
node 1; `echoSend` is the echo reply transmission by node 1;
`clientDeliver` is the arrival of an echo reply at node 0. -/
inductive Action where
  | clientSend (k : ℕ)
  | serverDeliver (bytes : ℕ) (txTime : ℚ)
  | echoSend (bytes : ℕ)
  | clientDeliver (bytes : ℕ) (txTime : ℚ)
deriving DecidableEq, Repr

/-- An event: firing time, insertion sequence number, action (spec
section 3).  Ordering key is `(time, seq)`. -/
structure Event where
  time : ℚ
  seq : ℕ
  act : Action
deriving DecidableEq, Repr

/-- The event ordering `(time, sequence)` of spec section 3:
earlier time first, FIFO tie-break on the insertion sequence. -/
def eventLe (a b : Event) : Bool :=
  decide (a.time < b.time ∨ (a.time = b.time ∧ a.seq ≤ b.seq))

/-- Pop a `(time, sequence)`-minimal event from the queue, keeping the
remaining events. -/
def popMin : List Event → Option (Event × List Event)
  | [] => none
  | e :: es =>
    match popMin es with
    | none => some (e, [])
    | some (m, rest) => if eventLe e m then some (e, es) else some (m, e :: rest)

/-- Statistics of the two flows observed in the run: the forward flow
(node 0 to node 1, the beacons) and the reverse flow (node 1 to
node 0, the echo replies). -/
structure TwoFlows where
  fwd : FlowStats
  rev : FlowStats
deriving DecidableEq, Repr

/-- Full simulation configuration (spec section 6), with the values
used by the source recorded in `scenarioCfg`. -/
structure SimCfg where
  startT : ℚ
  stopT : ℚ
  interval : ℚ
  maxPkts : ℕ
  pktSize : ℕ
  prop : PropCfg
  pos0 : Vec3
  vel0 : Vec3
  pos1 : Vec3
  vel1 : Vec3
deriving DecidableEq, Repr

/-- Simulation state: current virtual time, fresh-sequence counter,
pending event queue, per-flow statistics. -/
structure SimState where
  now : ℚ
  nextSeq : ℕ
  queue : List Event
  flows : TwoFlows
deriving DecidableEq, Repr

/-- Distance between the two nodes at simulated time `t`, positions
read from the mobility model at that time (spec section 4.4). -/
def distanceAt (cfg : SimCfg) (t : ℚ) : ℚ :=
  dist (positionAt cfg.pos0 cfg.vel0 t) (positionAt cfg.pos1 cfg.vel1 t)

/-- Insert a new event, stamping it with the next sequence number. -/
def pushEvent (s : SimState) (t : ℚ) (a : Action) : SimState :=
  { s with queue := ⟨t, s.nextSeq, a⟩ :: s.queue, nextSeq := s.nextSeq + 1 }

/-- FlowStatsCollector `onSent` (spec section 4.6). -/
def onSent (f : FlowStats) : FlowStats :=
  { f with txPackets := f.txPackets + 1 }

/-- FlowStatsCollector `onDelivered` (spec section 4.6). -/
def onDelivered (f : FlowStats) (delay : ℚ) (bytes : ℕ) : FlowStats :=
  { f with
    rxPackets := f.rxPackets + 1
    delaySum := f.delaySum + delay
    rxBytes := f.rxBytes + bytes }

/-- FlowStatsCollector `onDropped` (spec section 4.6). -/
def onDropped (f : FlowStats) : FlowStats :=
  { f with lostPackets := f.lostPackets + 1 }

/-- Process one event (spec sections 4.4-4.5).  A send action counts
the transmission first, then asks the propagation model whether the
packet is receivable at the current distance: if so it schedules the
delivery after the propagation delay, otherwise it records a drop
immediately.  A delivery action credits the receive with its delay and
bytes; a beacon delivery additionally makes the echo server schedule
its reply transmission; the k-th beacon re-arms the (k+1)-th while the
packet budget lasts and the next beacon would still fire before the
stop time. -/
def applyEvent (cfg : SimCfg) (e : Event) (s : SimState) : SimState :=
  match e.act with
  | Action.clientSend k =>
    let r := evaluate cfg.prop (distanceAt cfg e.time)
    let s1 := { s with flows := { s.flows with fwd := onSent s.flows.fwd } }
    let s2 :=
      if r.receivable then
        pushEvent s1 (e.time + r.delay) (Action.serverDeliver cfg.pktSize e.time)
      else
        { s1 with flows := { s1.flows with fwd := onDropped s1.flows.fwd } }
    if k + 1 < cfg.maxPkts && beaconFires cfg.startT cfg.stopT cfg.interval (k + 1) then
      pushEvent s2 (sendTimeAt cfg.startT cfg.interval (k + 1)) (Action.clientSend (k + 1))
    else
      s2
  | Action.serverDeliver bytes txT =>
    let s1 :=
      { s with flows := { s.flows with fwd := onDelivered s.flows.fwd (e.time - txT) bytes } }
    pushEvent s1 e.time (Action.echoSend bytes)
  | Action.echoSend bytes =>
    let r := evaluate cfg.prop (distanceAt cfg e.time)
    let s1 := { s with flows := { s.flows with rev := onSent s.flows.rev } }
    if r.receivable then
      pushEvent s1 (e.time + r.delay) (Action.clientDeliver bytes e.time)
    else
      { s1 with flows := { s1.flows with rev := onDropped s1.flows.rev } }
  | Action.clientDeliver bytes txT =>
    { s with flows := { s.flows with rev := onDelivered s.flows.rev (e.time - txT) bytes } }

/-- The event loop `runUntil` (spec section 4.1): pop events in
`(time, sequence)` order, advance the clock to each popped event's
time and process it, until the queue is empty or the next event's time
exceeds the stop time, at which point the clock is advanced to the
stop time; `fuel` bounds the number of processed events. -/
def runSim (cfg : SimCfg) : ℕ → SimState → SimState
  | 0, s => s
  | Nat.succ fuel, s =>
    match popMin s.queue with
    | none => { s with now := cfg.stopT }
    | some (e, rest) =>
      if e.time ≤ cfg.stopT then
        runSim cfg fuel (applyEvent cfg e { s with queue := rest, now := e.time })
      else
        { s with now := cfg.stopT }

/-- A flow record with all counters zero (created lazily in the spec;
here both flow records start empty). -/
def emptyFlow : FlowStats := ⟨0, 0, 0, 0, 0⟩

/-- Initial state: virtual time 0, and the first beacon scheduled at
the generator's start time, provided the packet budget is positive and
a beacon at the start time would fire at all (spec section 4.5). -/
def initState (cfg : SimCfg) : SimState :=
  let base : SimState := { now := 0, nextSeq := 0, queue := [], flows := ⟨emptyFlow, emptyFlow⟩ }
  if 0 < cfg.maxPkts && beaconFires cfg.startT cfg.stopT cfg.interval 0 then
    pushEvent base (sendTimeAt cfg.startT cfg.interval 0) (Action.clientSend 0)
  else
    base

/-! ## The configured scenario (source lines 21-114) -/

/-- Linear-domain propagation constants for the configured scenario:
transmit power 23 dBm (about 199.5 mW, source line 23), receiver gain
10 dB (source line 47), noise figure 2 dB (about 1.585, source line
48), receiver sensitivity about -101 dBm (8e-14 mW, the 802.11p
default left implicit in the source), wavelength c / 5.9 GHz (source
line 40), antenna heights 1.5 m (source lines 41 and 63-64), and a
rational approximation of 4*pi.  The spec (section 9) treats the gain
and sensitivity figures as tunable constants. -/
def scenarioProp : PropCfg :=
  { txPow := 1995/10
    antGain := 10
    noiseFactor := 1585/1000
    sens := 8/100000000000000
    lambda := 299792458/5900000000
    hTx := 3/2
    hRx := 3/2
    c := 299792458
    fourPi := 1420/113 }

/-- The full scenario configuration from the source: client active
from 1 s to 10 s, beacons every 0.1 s, at most 90 packets of 500
bytes, and the mobility of source lines 62-72. -/
def scenarioCfg : SimCfg :=
  { startT := clientStartTime
    stopT := simStopTime
    interval := beaconInterval
    maxPkts := maxPackets
    pktSize := packetSize
    prop := scenarioProp
    pos0 := node0Pos
    vel0 := node0Vel
    pos1 := node1Pos
    vel1 := node1Vel }

/-- Final state of the configured scenario run (400 units of fuel are
more than the 360 events the run processes). -/
def scenarioRun : SimState := runSim scenarioCfg 400 (initState scenarioCfg)

/-- Inter-node distance at time `t` in the configured scenario. -/
def scenarioDistAt (t : ℚ) : ℚ := distanceAt scenarioCfg t

/-- Is this action a transmission?  These are exactly the two actions
on which `applyEvent` invokes the propagation model: the client's
beacon sends and the echo server's reply sends. -/
def isTransmit (a : Action) : Bool :=
  match a with
  | Action.clientSend _ => true
  | Action.echoSend _ => true
  | _ => false

/-- The event loop of `runSim`, additionally collecting the inter-node
distance at which the propagation model is evaluated for every
transmission processed; `runSimTrace_fst` shows the instrumentation
does not change the run. -/
def runSimTrace (cfg : SimCfg) : ℕ → SimState → List ℚ → SimState × List ℚ
  | 0, s, acc => (s, acc)
  | Nat.succ fuel, s, acc =>
    match popMin s.queue with
    | none => ({ s with now := cfg.stopT }, acc)
    | some (e, rest) =>
      if e.time ≤ cfg.stopT then
        runSimTrace cfg fuel (applyEvent cfg e { s with queue := rest, now := e.time })
          (if isTransmit e.act then acc ++ [distanceAt cfg e.time] else acc)
      else
        ({ s with now := cfg.stopT }, acc)

/-- The distances at which the propagation model is evaluated for the
transmissions of the configured scenario run, in processing order
(90 beacon sends and 90 echo-reply sends). -/
def scenarioTransmitDistances : List ℚ :=
  (runSimTrace scenarioCfg 400 (initState scenarioCfg) []).2

/-! ## Relational event-loop semantics (for determinism, spec section 5)

The functional `runSim` fixes a particular popping strategy; the
relation below allows popping any `(time, sequence)`-minimal event, so
that determinism of the event ordering is a theorem rather than an
artefact of the embedding. -/

/-- The event e is a `(time, sequence)`-minimal element of the
queue. -/
def IsMinIn (q : List Event) (e : Event) : Prop :=
  e ∈ q ∧ ∀ f ∈ q, eventLe e f = true

/-- Well-formed state: every queued event carries a sequence number
below the fresh counter, and sequence numbers are pairwise distinct
(spec section 3: the sequence is a monotonically increasing counter
assigned at insertion). -/
def WF (s : SimState) : Prop :=
  (∀ e ∈ s.queue, e.seq < s.nextSeq) ∧ (s.queue.map Event.seq).Nodup

/-- One step of the event loop, relationally: some minimal event with
time within the stop time is removed from the queue and processed. -/
def StepRel (cfg : SimCfg) (s s' : SimState) : Prop :=
  ∃ e, IsMinIn s.queue e ∧ e.time ≤ cfg.stopT
    ∧ s' = applyEvent cfg e { s with queue := s.queue.erase e, now := e.time }

/-- n-step reachability of the relational event loop. -/
inductive RunRel (cfg : SimCfg) : ℕ → SimState → SimState → Prop where
  | refl (s : SimState) : RunRel cfg 0 s s
  | step {s s1 s2 : SimState} {n : ℕ} :
      StepRel cfg s s1 → RunRel cfg n s1 s2 → RunRel cfg (n + 1) s s2

/-- Is this action a pending delivery of the forward flow? -/
def isFwdPending (a : Action) : Bool :=
  match a with
  | Action.serverDeliver _ _ => true
  | _ => false

/-- Is this action a pending delivery of the reverse flow? -/
def isRevPending (a : Action) : Bool :=
  match a with
  | Action.clientDeliver _ _ => true
  | _ => false

/-- Number of in-flight (sent, not yet delivered) packets of the
forward flow: pending delivery events in the queue. -/
def pendingFwd (q : List Event) : ℕ :=
  (q.filter (fun e => isFwdPending e.act)).length

/-- Number of in-flight packets of the reverse flow. -/
def pendingRev (q : List Event) : ℕ :=
  (q.filter (fun e => isRevPending e.act)).length

/-- Conservation invariant for one flow: every transmitted packet is
received, lost, or still in flight. -/
def FlowConserved (f : FlowStats) (pending : ℕ) : Prop :=
  f.txPackets = f.rxPackets + f.lostPackets + pending

/-- Conservation invariant of a simulation state: both flows conserve
packets. -/
def Conserved (s : SimState) : Prop :=
  FlowConserved s.flows.fwd (pendingFwd s.queue)
  ∧ FlowConserved s.flows.rev (pendingRev s.queue)

/-! ## Shared helper lemmas -/

set_option maxRecDepth 10000

theorem sqrtIter_eq (fuel n g : ℕ) (h : g ≤ fuel) :
    sqrtIter fuel n g = Nat.sqrt.iter n g := by
  induction fuel generalizing g with
  | zero =>
    interval_cases g
    rw [sqrtIter, Nat.sqrt.iter]
    simp
  | succ fuel ih =>
    rw [sqrtIter, Nat.sqrt.iter]
    by_cases hlt : (g + n / g) / 2 < g
    · simp only [hlt, if_pos, dif_pos]
      exact ih _ (by omega)
    · simp [hlt]

theorem natSqrt_eq (n : ℕ) : natSqrt n = Nat.sqrt n := by
  unfold natSqrt Nat.sqrt
  by_cases h : n ≤ 1
  · simp [h]
  · simp only [h, if_neg, if_false]
    exact sqrtIter_eq n n (n / 2) (Nat.div_le_self n 2)

theorem abs_eq_natAbs_div (x : ℚ) : |x| = (x.num.natAbs : ℚ) / (x.den : ℚ) := by
  conv_lhs => rw [← Rat.num_div_den x]
  rw [abs_div]
  congr 1
  · rw [Nat.cast_natAbs, Int.cast_abs]
  · exact abs_of_pos (by exact_mod_cast x.pos)

theorem ratSqrt_sq (x : ℚ) : ratSqrt (x ^ 2) = |x| := by
  unfold ratSqrt
  rw [natSqrt_eq, natSqrt_eq, Rat.num_pow, Rat.den_pow]
  have hnum : (x.num ^ 2).toNat = x.num.natAbs ^ 2 := by
    have h : x.num ^ 2 = ((x.num.natAbs ^ 2 : ℕ) : ℤ) := by
      push_cast
      rw [sq_abs]
    rw [h, Int.toNat_natCast]
  rw [hnum, Nat.sqrt_eq', Nat.sqrt_eq', abs_eq_natAbs_div]

/-- The configured scenario run, evaluated: the queue drains
completely and both flows record 90 transmitted, 90 received and 0
lost packets totalling 45000 received bytes. -/
theorem scenarioRun_eq :
    scenarioRun.queue = []
    ∧ scenarioRun.flows.fwd.txPackets = 90
    ∧ scenarioRun.flows.fwd.rxPackets = 90
    ∧ scenarioRun.flows.fwd.lostPackets = 0
    ∧ scenarioRun.flows.fwd.rxBytes = 45000
    ∧ scenarioRun.flows.rev.txPackets = 90
    ∧ scenarioRun.flows.rev.rxPackets = 90
    ∧ scenarioRun.flows.rev.lostPackets = 0
    ∧ scenarioRun.flows.rev.rxBytes = 45000 := by
  with_unfolding_all decide

/-- Closed form of the inter-node distance in the configured scenario:
the nodes start 50 m apart and close at a relative 40 m/s. -/
theorem scenarioDist_eq (t : ℚ) : scenarioDistAt t = |50 - 40 * t| := by
  have h : distSq (positionAt scenarioCfg.pos0 scenarioCfg.vel0 t)
      (positionAt scenarioCfg.pos1 scenarioCfg.vel1 t) = (50 - 40 * t) ^ 2 := by
    simp only [distSq, positionAt, scenarioCfg, node0Pos, node1Pos, node0Vel, node1Vel,
      initialDistance]
    ring
  unfold scenarioDistAt distanceAt dist
  rw [h, ratSqrt_sq]

/-- No scheduled beacon is sent at zero inter-node distance: the k-th
beacon goes out at time `1 + k/10`, where the distance is
`|10 - 4k| ≥ 2`. -/
theorem scenario_send_dist_ne_zero (k : ℕ) (_hk : k < 90) :
    scenarioDistAt (sendTimeAt clientStartTime beaconInterval k) ≠ 0 := by
  rw [scenarioDist_eq]
  intro h
  rw [abs_eq_zero] at h
  unfold sendTimeAt clientStartTime beaconInterval at h
  have h4 : (4 * k : ℚ) = 10 := by linarith
  have h4n : (4 * k : ℕ) = 10 := by exact_mod_cast h4
  omega

/-! ## C1: delivery-ratio guard at report time -/

/-- C1 counterexample: for a flow record with `txPackets = 0` the
report's division on source line 148 executes with a zero denominator
(there is no guard), contradicting the claim that the division is
never executed with `txPackets == 0`; its IEEE result is NaN. -/
theorem c1_counterexample :
    reportDividesByZero ⟨0, 0, 0, 0, 0⟩ = true
    ∧ (reportFlow ⟨0, 0, 0, 0, 0⟩).deliveryRatioPct = DVal.nan := by
  constructor
  · rfl
  · norm_num [reportFlow, ddiv]

/-- C1 amended: `deliveryRatioPct` is computed as the IEEE double
division `rxPackets * 100.0 / txPackets` performed unconditionally;
when `txPackets` is nonzero it yields the finite ratio, and when
`txPackets = 0` the division still executes (zero denominator) and
its non-finite IEEE value (NaN for a flow with no traffic) is what the
report prints - the guard the claim describes is absent. -/
theorem c1_amended_delivery_ratio (s : FlowStats) :
    (s.txPackets ≠ 0 →
      (reportFlow s).deliveryRatioPct =
        DVal.finite ((s.rxPackets : ℚ) * 100 / (s.txPackets : ℚ)))
    ∧ (s.txPackets = 0 →
        reportDividesByZero s = true
        ∧ (s.rxPackets = 0 → (reportFlow s).deliveryRatioPct = DVal.nan)) := by
  constructor
  · intro h
    have h0 : (s.txPackets : ℚ) ≠ 0 := Nat.cast_ne_zero.mpr h
    simp [reportFlow, ddiv, h0]
  · intro h
    refine ⟨by simp [reportDividesByZero, h], ?_⟩
    intro hr
    simp [reportFlow, ddiv, h, hr]

/-- Witness for `c1_amended_delivery_ratio` at concrete flow
records. -/
theorem c1_witness :
    (reportFlow ⟨2, 1, 0, 0, 0⟩).deliveryRatioPct = DVal.finite ((1 : ℚ) * 100 / (2 : ℚ))
    ∧ reportDividesByZero ⟨0, 0, 0, 0, 0⟩ = true := by
  refine ⟨(c1_amended_delivery_ratio ⟨2, 1, 0, 0, 0⟩).1 (by norm_num), ?_⟩
  exact ((c1_amended_delivery_ratio ⟨0, 0, 0, 0, 0⟩).2 rfl).1

/-! ## C2: scenario statistics -/

/-- C2: in the configured scenario the sender's (forward) flow records
90 transmitted and 90 received packets, and the report computes a
delivery ratio of 100 percent for it. -/
theorem c2_scenario_stats :
    scenarioRun.flows.fwd.txPackets = 90
    ∧ scenarioRun.flows.fwd.rxPackets = 90
    ∧ (reportFlow scenarioRun.flows.fwd).deliveryRatioPct = DVal.finite 100 := by
  obtain ⟨-, htx, hrx, -⟩ := scenarioRun_eq
  refine ⟨htx, hrx, ?_⟩
  simp only [reportFlow, htx, hrx]
  norm_num [ddiv]

/-! ## C3: the sink is not passive -/

/-- C3 counterexample: the receiving node transmits packets of its
own - the source installs a `UdpEchoServer` (lines 96-100), which
sends one echo reply back per received packet, so the reverse flow's
transmit counter is nonzero. -/
theorem c3_counterexample : scenarioRun.flows.rev.txPackets ≠ 0 := by
  rw [scenarioRun_eq.2.2.2.2.2.1]
  norm_num

/-- C3 amended: the receiving node runs a `UdpEchoServer`, which
originates exactly one echo reply per received packet; in the
configured scenario the reverse flow (node 1 to node 0) transmits one
packet per beacon received by the server, 90 in total, so traffic
flows in both directions. -/
theorem c3_amended_echo_traffic :
    scenarioRun.flows.rev.txPackets = scenarioRun.flows.fwd.rxPackets
    ∧ scenarioRun.flows.rev.txPackets = 90 := by
  obtain ⟨-, -, hrx, -, -, hrevtx, -⟩ := scenarioRun_eq
  rw [hrx, hrevtx]
  exact ⟨rfl, rfl⟩

/-! ## C4: throughput formula -/

/-- C4: whenever the report prints a throughput, it equals
`rxBytes * 8 / durationSeconds / 1000` kbps with `durationSeconds`
the fixed configured window `9.0` = stop time minus start time
(hardcoded on source line 154), not a measured duration. -/
theorem c4_throughput (s : FlowStats) (h : 0 < s.rxPackets) :
    (reportFlow s).throughputKbps =
      some ((s.rxBytes : ℚ) * 8 / (simStopTime - clientStartTime) / 1000)
    ∧ simStopTime - clientStartTime = 9 := by
  constructor
  · simp only [reportFlow, h, if_pos]
    norm_num [simStopTime, clientStartTime]
  · norm_num [simStopTime, clientStartTime]

/-- Witness for `c4_throughput` at the scenario's forward flow
record. -/
theorem c4_witness :
    (reportFlow ⟨90, 90, 0, 0, 45000⟩).throughputKbps =
      some ((45000 : ℚ) * 8 / (simStopTime - clientStartTime) / 1000)
    ∧ simStopTime - clientStartTime = 9 :=
  c4_throughput ⟨90, 90, 0, 0, 45000⟩ (by norm_num)

/-! ## C5: conservation of packets -/

theorem popMin_eq_none {q : List Event} : popMin q = none ↔ q = [] := by
  cases q with
  | nil => simp [popMin]
  | cons e es =>
    rw [popMin]
    cases h : popMin es with
    | none => simp
    | some p =>
      obtain ⟨m, r⟩ := p
      by_cases hle : eventLe e m = true <;> simp [hle]

theorem popMin_perm {q : List Event} {e : Event} {rest : List Event}
    (h : popMin q = some (e, rest)) : q.Perm (e :: rest) := by
  induction q generalizing e rest with
  | nil => simp [popMin] at h
  | cons a as ih =>
    rw [popMin] at h
    cases has : popMin as with
    | none =>
      rw [has] at h
      obtain ⟨rfl, rfl⟩ : a = e ∧ ([] : List Event) = rest := by
        simpa using h
      have hnil : as = [] := popMin_eq_none.mp has
      rw [hnil]
    | some p =>
      obtain ⟨m, r⟩ := p
      rw [has] at h
      dsimp only at h
      by_cases hle : eventLe a m = true
      · rw [if_pos hle] at h
        obtain ⟨rfl, rfl⟩ : a = e ∧ as = rest := by simpa using h
        exact List.Perm.refl _
      · rw [if_neg hle] at h
        obtain ⟨he, hrest⟩ : m = e ∧ a :: r = rest := by simpa using h
        subst hrest
        rw [← he]
        have hperm : as.Perm (m :: r) := ih has
        exact (hperm.cons a).trans (List.Perm.swap m a r)

theorem pendingFwd_cons (e : Event) (q : List Event) :
    pendingFwd (e :: q) = (if isFwdPending e.act then 1 else 0) + pendingFwd q := by
  unfold pendingFwd
  rw [List.filter_cons]
  by_cases h : isFwdPending e.act <;> simp [h, Nat.add_comm]

theorem pendingRev_cons (e : Event) (q : List Event) :
    pendingRev (e :: q) = (if isRevPending e.act then 1 else 0) + pendingRev q := by
  unfold pendingRev
  rw [List.filter_cons]
  by_cases h : isRevPending e.act <;> simp [h, Nat.add_comm]

theorem conserved_applyEvent (cfg : SimCfg) (e : Event) (s : SimState)
    (h : Conserved { s with queue := e :: s.queue }) :
    Conserved (applyEvent cfg e s) := by
  obtain ⟨hf, hr⟩ := h
  unfold FlowConserved at hf hr
  dsimp only at hf hr
  rw [pendingFwd_cons] at hf
  rw [pendingRev_cons] at hr
  rcases e with ⟨t, sq, a⟩
  dsimp only at hf hr
  cases a with
  | clientSend k =>
    simp [isFwdPending, isRevPending] at hf hr
    unfold applyEvent
    dsimp only
    split <;> split <;>
      simp only [Conserved, FlowConserved, pushEvent, onSent, onDropped,
        pendingFwd_cons, pendingRev_cons, isFwdPending, isRevPending] <;>
      refine ⟨?_, ?_⟩ <;> (try simp) <;> omega
  | serverDeliver bytes txT =>
    simp [isFwdPending, isRevPending] at hf hr
    unfold applyEvent
    dsimp only
    simp only [Conserved, FlowConserved, pushEvent, onDelivered,
      pendingFwd_cons, pendingRev_cons, isFwdPending, isRevPending]
    refine ⟨?_, ?_⟩ <;> (try simp) <;> omega
  | echoSend bytes =>
    simp [isFwdPending, isRevPending] at hf hr
    unfold applyEvent
    dsimp only
    split <;>
      simp only [Conserved, FlowConserved, pushEvent, onSent, onDropped,
        pendingFwd_cons, pendingRev_cons, isFwdPending, isRevPending] <;>
      refine ⟨?_, ?_⟩ <;> (try simp) <;> omega
  | clientDeliver bytes txT =>
    simp [isFwdPending, isRevPending] at hf hr
    unfold applyEvent
    dsimp only
    simp only [Conserved, FlowConserved, onDelivered]
    refine ⟨?_, ?_⟩ <;> omega

theorem conserved_runSim (cfg : SimCfg) (fuel : ℕ) (s : SimState)
    (h : Conserved s) : Conserved (runSim cfg fuel s) := by
  induction fuel generalizing s with
  | zero => exact h
  | succ fuel ih =>
    rw [runSim]
    cases hpop : popMin s.queue with
    | none => exact h
    | some p =>
      obtain ⟨e, rest⟩ := p
      dsimp only
      by_cases ht : e.time ≤ cfg.stopT
      · rw [if_pos ht]
        apply ih
        apply conserved_applyEvent
        have hperm := popMin_perm hpop
        obtain ⟨hf, hr⟩ := h
        constructor
        · unfold FlowConserved at hf ⊢
          rw [hf]
          unfold pendingFwd
          rw [((hperm.filter _).length_eq)]
        · unfold FlowConserved at hr ⊢
          rw [hr]
          unfold pendingRev
          rw [((hperm.filter _).length_eq)]
      · rw [if_neg ht]
        exact h

/-- C5 counterexample: one event into the configured run (right after
the first beacon transmission, while the packet is still in flight)
the forward flow has `txPackets = 1` but `rxPackets + lostPackets = 0`,
so the claimed equality `txPackets = rxPackets + droppedPackets` does
not hold at every point during the run. -/
theorem c5_counterexample :
    (runSim scenarioCfg 1 (initState scenarioCfg)).flows.fwd.txPackets ≠
      (runSim scenarioCfg 1 (initState scenarioCfg)).flows.fwd.rxPackets +
        (runSim scenarioCfg 1 (initState scenarioCfg)).flows.fwd.lostPackets := by
  with_unfolding_all decide

/-- C5 amended: at every point of any run from a conserving state
(the initial state in particular), `txPackets ≥ rxPackets` for both
flows, and `txPackets = rxPackets + lostPackets + inFlight` where
`inFlight` counts the packets sent but not yet delivered; the plain
equality `txPackets = rxPackets + lostPackets` holds once no packet is
in flight, in particular at the end of the configured run, where both
flows satisfy it. -/
theorem c5_amended_conservation (cfg : SimCfg) (fuel : ℕ) (s : SimState)
    (h : Conserved s) :
    Conserved (runSim cfg fuel s)
    ∧ (runSim cfg fuel s).flows.fwd.rxPackets ≤ (runSim cfg fuel s).flows.fwd.txPackets
    ∧ (runSim cfg fuel s).flows.rev.rxPackets ≤ (runSim cfg fuel s).flows.rev.txPackets
    ∧ scenarioRun.flows.fwd.txPackets =
        scenarioRun.flows.fwd.rxPackets + scenarioRun.flows.fwd.lostPackets
    ∧ scenarioRun.flows.rev.txPackets =
        scenarioRun.flows.rev.rxPackets + scenarioRun.flows.rev.lostPackets := by
  have hc := conserved_runSim cfg fuel s h
  obtain ⟨hf, hr⟩ := hc
  unfold FlowConserved at hf hr
  obtain ⟨-, htx, hrx, hlost, -, hrevtx, hrevrx, hrevlost, -⟩ := scenarioRun_eq
  refine ⟨⟨hf, hr⟩, by omega, by omega, ?_, ?_⟩
  · rw [htx, hrx, hlost]
  · rw [hrevtx, hrevrx, hrevlost]

/-- Witness for `c5_amended_conservation`: the initial scenario state
conserves packets. -/
theorem c5_witness :
    Conserved (runSim scenarioCfg 1 (initState scenarioCfg))
    ∧ Conserved (initState scenarioCfg) :=
  ⟨(c5_amended_conservation scenarioCfg 1 (initState scenarioCfg)
      (by unfold Conserved FlowConserved; refine ⟨?_, ?_⟩ <;> with_unfolding_all decide)).1,
   by unfold Conserved FlowConserved; refine ⟨?_, ?_⟩ <;> with_unfolding_all decide⟩

/-! ## C6: zero-distance propagation -/

/-- C6: for co-located transmitter and receiver positions (squared
distance zero, hence distance zero), propagation evaluation is total
and returns delay 0, receivable true, and zero path loss (loss factor
1, i.e. 0 dB), so the received power equals the transmit power times
the antenna gain. -/
theorem c6_zero_distance (c : PropCfg) (p q : Vec3) (d : ℚ)
    (hsq : d ^ 2 = distSq p q) (h0 : distSq p q = 0) :
    evaluate c d = ⟨0, true, c.txPow * c.antGain⟩ ∧ pathLoss c d = 1 := by
  have hd0 : d = 0 := by
    have h2 : d ^ 2 = 0 := by rw [hsq, h0]
    exact pow_eq_zero_iff (two_ne_zero) |>.mp h2
  subst hd0
  have hpl : pathLoss c 0 = 1 := by simp [pathLoss]
  refine ⟨?_, hpl⟩
  simp [evaluate, rxPow, hpl, zero_div]

/-- Witness for `c6_zero_distance` at co-located concrete
positions. -/
theorem c6_witness :
    evaluate scenarioProp 0 = ⟨0, true, scenarioProp.txPow * scenarioProp.antGain⟩
    ∧ pathLoss scenarioProp 0 = 1 :=
  c6_zero_distance scenarioProp node0Pos node0Pos 0
    (by norm_num [distSq, node0Pos]) (by norm_num [distSq, node0Pos])

/-! ## C7: two-ray ground loss regimes -/

/-- C7: beyond the crossover distance `4*pi*h_tx*h_rx/lambda` the
path loss is `d^4 / (h_tx^2 * h_rx^2)` (proportional to the fourth
power of the distance); below it the free-space loss
`(4*pi/lambda)^2 * d^2` applies (proportional to the square); and the
received power is the transmit power times the antenna gain divided by
the path loss, the linear-domain reading of
`rxPowerDbm = txPowerDbm + antennaGainDbm - pathLossDb`. -/
theorem c7_two_ray_loss (c : PropCfg) (d : ℚ) :
    (0 < d → crossoverDist c ≤ d →
      pathLoss c d = d ^ 4 / (c.hTx ^ 2 * c.hRx ^ 2))
    ∧ (0 < d → d < crossoverDist c →
        pathLoss c d = (c.fourPi / c.lambda) ^ 2 * d ^ 2)
    ∧ rxPow c d = c.txPow * c.antGain / pathLoss c d := by
  refine ⟨?_, ?_, rfl⟩
  · intro h1 h2
    unfold pathLoss
    rw [if_neg h1.ne', if_neg (not_lt.mpr h2)]
    rfl
  · intro h1 h2
    unfold pathLoss
    rw [if_neg h1.ne', if_pos h2]
    unfold freeSpaceLoss
    ring

/-- Witness for `c7_two_ray_loss`: with the scenario constants the
crossover distance is about 556.5 m, so 600 m is in the two-ray
regime and 100 m in the free-space regime. -/
theorem c7_witness :
    pathLoss scenarioProp 600 = 600 ^ 4 / (scenarioProp.hTx ^ 2 * scenarioProp.hRx ^ 2)
    ∧ pathLoss scenarioProp 100 =
        (scenarioProp.fourPi / scenarioProp.lambda) ^ 2 * 100 ^ 2 :=
  ⟨(c7_two_ray_loss scenarioProp 600).1 (by norm_num) (by with_unfolding_all decide),
   (c7_two_ray_loss scenarioProp 100).2.1 (by norm_num) (by with_unfolding_all decide)⟩

/-! ## C8: send-window boundary -/

/-- C8: for a nonnegative interval and a start time before the stop
time, a beacon scheduled exactly at the stop time does not fire, the
beacon scheduled exactly at the start time (k = 0) does fire, and a
scheduled beacon fires exactly when its time t satisfies
`startTime ≤ t < stopTime`. -/
theorem c8_beacon_boundary (startT stopT interval : ℚ)
    (hi : 0 ≤ interval) (hs : startT < stopT) :
    (∀ k, sendTimeAt startT interval k = stopT →
      beaconFires startT stopT interval k = false)
    ∧ beaconFires startT stopT interval 0 = true
    ∧ (∀ k, beaconFires startT stopT interval k = true ↔
        (startT ≤ sendTimeAt startT interval k
         ∧ sendTimeAt startT interval k < stopT)) := by
  have hle : ∀ k : ℕ, startT ≤ sendTimeAt startT interval k := by
    intro k
    unfold sendTimeAt
    have : 0 ≤ (k : ℚ) * interval := mul_nonneg (Nat.cast_nonneg k) hi
    linarith
  refine ⟨?_, ?_, ?_⟩
  · intro k hk
    unfold beaconFires
    rw [hk]
    simp
  · unfold beaconFires sendTimeAt
    simp only [Nat.cast_zero, zero_mul, add_zero]
    exact decide_eq_true hs
  · intro k
    unfold beaconFires
    rw [decide_eq_true_eq]
    exact ⟨fun h => ⟨hle k, h⟩, fun h => h.2⟩

/-- Witness for `c8_beacon_boundary` at the configured parameters:
the 91st beacon would fall exactly on the stop time 10 s and does not
fire, while the beacon at the start time fires. -/
theorem c8_witness :
    beaconFires 1 10 (1/10) 90 = false ∧ beaconFires 1 10 (1/10) 0 = true :=
  ⟨(c8_beacon_boundary 1 10 (1/10) (by norm_num) (by norm_num)).1 90
      (by norm_num [sendTimeAt]),
   (c8_beacon_boundary 1 10 (1/10) (by norm_num) (by norm_num)).2.1⟩

/-! ## C10: scenario geometry -/

/-- The trace instrumentation of `runSimTrace` does not change the
run: its state component is exactly `runSim`. -/
theorem runSimTrace_fst (cfg : SimCfg) (fuel : ℕ) (s : SimState) (acc : List ℚ) :
    (runSimTrace cfg fuel s acc).1 = runSim cfg fuel s := by
  induction fuel generalizing s acc with
  | zero => rfl
  | succ fuel ih =>
    rw [runSimTrace, runSim]
    cases hpop : popMin s.queue with
    | none => rfl
    | some p =>
      obtain ⟨e, rest⟩ := p
      dsimp only
      by_cases ht : e.time ≤ cfg.stopT
      · rw [if_pos ht, if_pos ht]
        exact ih _ _
      · rw [if_neg ht, if_neg ht]

/-- The configured run performs exactly 180 transmissions (90 beacon
sends and 90 echo-reply sends), and the propagation model is never
evaluated at distance zero for any of them. -/
theorem scenarioTransmit_facts :
    (0 : ℚ) ∉ scenarioTransmitDistances
    ∧ scenarioTransmitDistances.length = 180 := by
  with_unfolding_all decide

/-- C10 counterexample: the zero-distance propagation edge case is
not exercised by any transmission of the run - all 180 transmissions
the run performs (the 90 beacon sends and the 90 echo-reply sends,
the only events on which the propagation model is invoked) happen at
nonzero inter-node distance - contrary to the claim's
parenthetical. -/
theorem c10_counterexample :
    (0 : ℚ) ∉ scenarioTransmitDistances
    ∧ scenarioTransmitDistances.length = 180 :=
  scenarioTransmit_facts

/-- C10 amended: with the configured positions and velocities the
inter-node distance at time t is `|50 - 40 t|` metres; the nodes are
exactly co-located at t = 1.25 s, which lies inside the client's
active window, and are 350 m apart at the 10 s stop time; but no
transmission happens at t = 1.25 s: the beacons go out at
`t = 1 + k/10`, where the distance `|10 - 4k|` is at least 2 m, and
all 180 transmissions of the run (beacon sends and echo-reply sends
alike) occur at nonzero distance, so the zero-distance propagation
edge case is never actually exercised by a transmission of the
run. -/
theorem c10_amended_distance :
    (∀ t : ℚ, scenarioDistAt t = |50 - 40 * t|)
    ∧ scenarioDistAt (5/4) = 0
    ∧ clientStartTime ≤ 5/4 ∧ (5/4 : ℚ) < clientStopTime
    ∧ scenarioDistAt 10 = 350
    ∧ (∀ k : ℕ, k < 90 →
        scenarioDistAt (sendTimeAt clientStartTime beaconInterval k) ≠ 0)
    ∧ (0 : ℚ) ∉ scenarioTransmitDistances
    ∧ scenarioTransmitDistances.length = 180 := by
  refine ⟨scenarioDist_eq, ?_, ?_, ?_, ?_, scenario_send_dist_ne_zero,
    scenarioTransmit_facts.1, scenarioTransmit_facts.2⟩
  · rw [scenarioDist_eq]
    norm_num
  · norm_num [clientStartTime]
  · norm_num [clientStopTime]
  · rw [scenarioDist_eq]
    norm_num

/-- Witness for `c10_amended_distance` at concrete inputs. -/
theorem c10_witness :
    scenarioDistAt 0 = |50 - 40 * (0 : ℚ)|
    ∧ scenarioDistAt (sendTimeAt clientStartTime beaconInterval 0) ≠ 0
    ∧ (0 : ℚ) ∉ scenarioTransmitDistances :=
  ⟨c10_amended_distance.1 0, c10_amended_distance.2.2.2.2.2.1 0 (by norm_num),
   c10_amended_distance.2.2.2.2.2.2.1⟩

/-! ## C9: determinism -/

theorem eventLe_antisymm_parts {a b : Event}
    (h1 : eventLe a b = true) (h2 : eventLe b a = true) :
    a.time = b.time ∧ a.seq = b.seq := by
  unfold eventLe at h1 h2
  rw [decide_eq_true_eq] at h1 h2
  rcases h1 with h1 | ⟨ht1, hs1⟩
  · rcases h2 with h2 | ⟨ht2, hs2⟩
    · exact absurd h2 (lt_asymm h1)
    · exact absurd ht2.symm (ne_of_lt h1)
  · rcases h2 with h2 | ⟨ht2, hs2⟩
    · exact absurd h2 (by rw [ht1]; exact lt_irrefl _)
    · exact ⟨ht1, Nat.le_antisymm hs1 hs2⟩

/-- With pairwise distinct sequence numbers, the
`(time, sequence)`-minimal event of a queue is unique: the FIFO
tie-break makes event ordering total (spec section 3). -/
theorem isMinIn_unique {q : List Event} {e1 e2 : Event}
    (hnd : (q.map Event.seq).Nodup)
    (h1 : IsMinIn q e1) (h2 : IsMinIn q e2) : e1 = e2 := by
  obtain ⟨ht, hs⟩ := eventLe_antisymm_parts (h1.2 e2 h2.1) (h2.2 e1 h1.1)
  exact List.inj_on_of_nodup_map hnd h1.1 h2.1 hs

/-- The relational event loop is deterministic: any two successors of
a well-formed state coincide. -/
theorem stepRel_det (cfg : SimCfg) {s s1 s2 : SimState} (hwf : WF s)
    (ha : StepRel cfg s s1) (hb : StepRel cfg s s2) : s1 = s2 := by
  obtain ⟨e, he, het, rfl⟩ := ha
  obtain ⟨f, hf, hft, rfl⟩ := hb
  cases isMinIn_unique hwf.2 he hf
  rfl

theorem wf_pushEvent {s : SimState} (h : WF s) (t : ℚ) (a : Action) :
    WF (pushEvent s t a) := by
  obtain ⟨hb, hnd⟩ := h
  constructor
  · intro e he
    unfold pushEvent at he
    dsimp only at he ⊢
    rcases List.mem_cons.mp he with rfl | he
    · exact Nat.lt_succ_self _
    · exact Nat.lt_succ_of_lt (hb e he)
  · unfold pushEvent
    dsimp only
    rw [List.map_cons, List.nodup_cons]
    refine ⟨?_, hnd⟩
    intro hmem
    obtain ⟨e, hme, hseq⟩ := List.mem_map.mp hmem
    have hlt := hb e hme
    rw [hseq] at hlt
    exact Nat.lt_irrefl _ hlt

theorem wf_applyEvent (cfg : SimCfg) (e : Event) {s : SimState} (h : WF s) :
    WF (applyEvent cfg e s) := by
  rcases e with ⟨t, sq, a⟩
  cases a with
  | clientSend k =>
    unfold applyEvent
    dsimp only
    split <;> split <;>
      first
      | exact h
      | exact wf_pushEvent h _ _
      | exact wf_pushEvent (wf_pushEvent h _ _) _ _
  | serverDeliver bytes txT =>
    unfold applyEvent
    dsimp only
    exact wf_pushEvent h _ _
  | echoSend bytes =>
    unfold applyEvent
    dsimp only
    split
    · exact wf_pushEvent h _ _
    · exact h
  | clientDeliver bytes txT =>
    unfold applyEvent
    dsimp only
    exact h

theorem wf_stepRel (cfg : SimCfg) {s s1 : SimState} (hwf : WF s)
    (h : StepRel cfg s s1) : WF s1 := by
  obtain ⟨e, he, het, rfl⟩ := h
  apply wf_applyEvent
  constructor
  · intro f hf
    exact hwf.1 f (List.mem_of_mem_erase hf)
  · exact hwf.2.sublist ((List.erase_sublist e s.queue).map Event.seq)

theorem runRel_det (cfg : SimCfg) :
    ∀ n (s s1 s2 : SimState), WF s →
      RunRel cfg n s s1 → RunRel cfg n s s2 → s1 = s2 := by
  intro n
  induction n with
  | zero =>
    intro s s1 s2 _ h1 h2
    cases h1
    cases h2
    rfl
  | succ n ih =>
    intro s s1 s2 hwf h1 h2
    cases h1 with
    | step hs1 hr1 =>
      cases h2 with
      | step hs2 hr2 =>
        obtain rfl := stepRel_det cfg hwf hs1 hs2
        exact ih _ _ _ (wf_stepRel cfg hwf hs1) hr1 hr2

/-- C9: the simulation is deterministic - from a well-formed state,
any two n-step executions of the relational event loop (which may pop
any minimal event, the only potential source of nondeterminism) reach
the same state, and in particular report identical per-flow
statistics; and propagation evaluation is a pure function of its
inputs, so identical inputs give identical outputs. -/
theorem c9_determinism (cfg : SimCfg) (n : ℕ) (s s1 s2 : SimState)
    (hwf : WF s) (h1 : RunRel cfg n s s1) (h2 : RunRel cfg n s s2) :
    s1.flows = s2.flows ∧ s1 = s2
    ∧ ∀ (pc : PropCfg) (d : ℚ), evaluate pc d = evaluate pc d := by
  obtain rfl := runRel_det cfg n s s1 s2 hwf h1 h2
  exact ⟨rfl, rfl, fun _ _ => rfl⟩

/-- Witness for `c9_determinism` at the scenario's initial state. -/
theorem c9_witness :
    (initState scenarioCfg).flows = (initState scenarioCfg).flows
    ∧ initState scenarioCfg = initState scenarioCfg
    ∧ ∀ (pc : PropCfg) (d : ℚ), evaluate pc d = evaluate pc d :=
  c9_determinism scenarioCfg 0 (initState scenarioCfg) _ _
    (by unfold WF; refine ⟨?_, ?_⟩ <;> with_unfolding_all decide)
    (RunRel.refl _) (RunRel.refl _)

end Dsrc
